import Mathlib

/-!
Shallow embedding of the core of `src/app.py` (Shipment Leg Enrichment
Application): facility catalog, nearest-port resolver, itinerary expansion
and the batch orchestration loop.  Geographic distance (`geopy.geodesic`)
is an external library call; it is embedded as an abstract distance
function `dist : Point → Point → ℚ` supplied as a parameter, so every
theorem quantifying over `dist` holds for the geodesic model in particular.
-/

/-- A geographic point `(latitude, longitude)`. -/
abbrev Point := ℚ × ℚ

/-- A row of the facility catalog `ports_df` after the load-time filter:
`Port Name`, `Latitude`, `Longitude` (the columns the core logic reads). -/
structure Port where
  name : String
  lat : ℚ
  lon : ℚ
  deriving Repr, DecidableEq

/-- A row of the cleaned shipment table: the eleven required columns of
`shipments_df` that the processing loop reads. -/
structure Shipment where
  consignmentId : String
  origin : String
  originLat : ℚ
  originLon : ℚ
  destination : String
  destinationLat : ℚ
  destinationLon : ℚ
  loadTons : ℚ
  customerName : String
  vehicleType : String
  date : String
  deriving Repr, DecidableEq

/-- Transport mode of a leg (`'ROAD'` / `'SEA'` literals in the source). -/
inductive Mode where
  | ROAD
  | SEA
  deriving Repr, DecidableEq

/-- One output row of `enriched_shipments`: the thirteen keys of each leg
dict built at lines 156-202 of `src/app.py`.  `Vehicle Type` is `None` on
the sea leg, hence an `Option`. -/
structure Leg where
  id : String
  sequence : ℕ
  origin : String
  destination : String
  originLat : ℚ
  originLon : ℚ
  destinationLat : ℚ
  destinationLon : ℚ
  loadTons : ℚ
  mode : Mode
  vehicleType : Option String
  customerName : String
  date : String
  deriving Repr, DecidableEq

/-- Model of `pandas.Series.idxmin` on the `Distance` column of a (port, distance)
table: the first row attaining the minimum of the second component
(pandas returns the first occurrence on ties), `none` on an empty table. -/
def idxmin_first : List (Port × ℚ) → Option (Port × ℚ)
  | [] => none
  | x :: xs =>
    match idxmin_first xs with
    | none => some x
    | some y => if y.2 < x.2 then some y else some x

/-- The resolver `select_nearest_port` (lines 122-134): annotate every catalog row with
its distance to `loc`, keep the rows with `Distance <= radius_km`, return
`None` if none remain, otherwise the row of minimal distance via `idxmin`. -/
def select_nearest_port (dist : Point → Point → ℚ) (ports : List Port)
    (radius : ℚ) (loc : Point) : Option Port :=
  let withDistance := ports.map (fun p => (p, dist loc (p.lat, p.lon)))
  let nearby := withDistance.filter (fun pd => pd.2 ≤ radius)
  Option.map Prod.fst (idxmin_first nearby)

/-- The `legs` list literal (lines 156-202): the three leg dicts built for
one shipment from its resolved origin and destination ports. -/
def legs (shipment : Shipment) (origin_port destination_port : Port) : List Leg :=
  [ { id := shipment.consignmentId
      sequence := 1
      origin := shipment.origin
      destination := origin_port.name
      originLat := shipment.originLat
      originLon := shipment.originLon
      destinationLat := origin_port.lat
      destinationLon := origin_port.lon
      loadTons := shipment.loadTons
      mode := Mode.ROAD
      vehicleType := some shipment.vehicleType
      customerName := shipment.customerName
      date := shipment.date },
    { id := shipment.consignmentId
      sequence := 2
      origin := origin_port.name
      destination := destination_port.name
      originLat := origin_port.lat
      originLon := origin_port.lon
      destinationLat := destination_port.lat
      destinationLon := destination_port.lon
      loadTons := shipment.loadTons
      mode := Mode.SEA
      vehicleType := none
      customerName := shipment.customerName
      date := shipment.date },
    { id := shipment.consignmentId
      sequence := 3
      origin := destination_port.name
      destination := shipment.destination
      originLat := destination_port.lat
      originLon := destination_port.lon
      destinationLat := shipment.destinationLat
      destinationLon := shipment.destinationLon
      loadTons := shipment.loadTons
      mode := Mode.ROAD
      vehicleType := some shipment.vehicleType
      customerName := shipment.customerName
      date := shipment.date } ]

/-- The body of the `for _, shipment in shipments_df.iterrows()` loop
(lines 136-203) for one shipment: resolve both endpoints; if either is
`None`, emit the skip warning and no legs, otherwise emit the three legs
and no warning. -/
def process_shipment (dist : Point → Point → ℚ) (ports : List Port)
    (radius : ℚ) (s : Shipment) : List Leg × List String :=
  let origin_port := select_nearest_port dist ports radius (s.originLat, s.originLon)
  let destination_port := select_nearest_port dist ports radius (s.destinationLat, s.destinationLon)
  match origin_port, destination_port with
  | some op, some dp => (legs s op dp, [])
  | _, _ =>
    ([], ["No suitable ports found within " ++ toString radius ++
          " km for shipment " ++ s.consignmentId ++ ". Skipping."])

/-- The whole processing loop (lines 136-203): `enriched_shipments` grows
by `extend(legs)` per matched shipment, and one `st.warning` diagnostic is
issued per skipped shipment, in input order. -/
def process (dist : Point → Point → ℚ) (ports : List Port) (radius : ℚ)
    (shipments : List Shipment) : List Leg × List String :=
  shipments.foldl
    (fun acc s =>
      let r := process_shipment dist ports radius s
      (acc.1 ++ r.1, acc.2 ++ r.2))
    ([], [])

/-- A concrete rational distance function used to instantiate the
abstract `dist` parameter in witnesses (squared Euclidean distance). -/
def sqDist (a b : Point) : ℚ :=
  (a.1 - b.1) * (a.1 - b.1) + (a.2 - b.2) * (a.2 - b.2)

/-- The function `idxmin_first` returns `none` exactly on the empty table. -/
theorem idxmin_first_eq_none_iff (l : List (Port × ℚ)) :
    idxmin_first l = none ↔ l = [] := by
  cases l with
  | nil => simp [idxmin_first]
  | cons x xs =>
    simp only [idxmin_first]
    cases h : idxmin_first xs with
    | none => simp
    | some y =>
      by_cases hy : y.2 < x.2 <;> simp [hy]

/-- Characterisation of `idxmin` composed with the radius filter, proved
over the annotated table: the result splits the table at the first
minimum, every earlier row is strictly farther (or out of radius, hence
also strictly farther), every later in-radius row is at least as far. -/
theorem idxmin_filter_spec (r : ℚ) :
    ∀ (l : List (Port × ℚ)) (y : Port × ℚ),
      idxmin_first (l.filter (fun z => z.2 ≤ r)) = some y →
      ∃ l1 l2, l = l1 ++ y :: l2 ∧ y.2 ≤ r ∧
        (∀ z ∈ l1, y.2 < z.2) ∧ (∀ z ∈ l2, z.2 ≤ r → y.2 ≤ z.2) := by
  intro l
  induction l with
  | nil => intro y h; simp [idxmin_first] at h
  | cons x xs ih =>
    intro y h
    by_cases hx : x.2 ≤ r
    · rw [List.filter_cons_of_pos (by simpa using hx)] at h
      simp only [idxmin_first] at h
      cases hF : idxmin_first (xs.filter (fun z => z.2 ≤ r)) with
      | none =>
        rw [hF] at h
        have hxy : x = y := by simpa using h
        have hnil : xs.filter (fun z => z.2 ≤ r) = [] :=
          (idxmin_first_eq_none_iff _).mp hF
        refine ⟨[], xs, by simp [hxy], hxy ▸ hx, by simp, ?_⟩
        intro z hz hzr
        exfalso
        have : z ∈ xs.filter (fun z => z.2 ≤ r) :=
          List.mem_filter.mpr ⟨hz, by simpa using hzr⟩
        simp [hnil] at this
      | some y0 =>
        rw [hF] at h
        have h : (if y0.2 < x.2 then some y0 else some x) = some y := h
        obtain ⟨l1, l2, hsplit, hy0r, hl1, hl2⟩ := ih y0 hF
        by_cases hlt : y0.2 < x.2
        · rw [if_pos hlt] at h
          have hy0y : y0 = y := by simpa using h
          subst hy0y
          refine ⟨x :: l1, l2, by simp [hsplit], hy0r, ?_, hl2⟩
          intro z hz
          rcases List.mem_cons.mp hz with hz | hz
          · exact hz ▸ hlt
          · exact hl1 z hz
        · rw [if_neg hlt] at h
          have hxy : x = y := by simpa using h
          subst hxy
          push_neg at hlt
          refine ⟨[], xs, rfl, hx, by simp, ?_⟩
          intro z hz hzr
          rw [hsplit] at hz
          rcases List.mem_append.mp hz with hz | hz
          · exact le_of_lt (lt_of_le_of_lt hlt (hl1 z hz))
          · rcases List.mem_cons.mp hz with hz | hz
            · exact hz ▸ hlt
            · exact le_trans hlt (hl2 z hz hzr)
    · rw [List.filter_cons_of_neg (by simpa using hx)] at h
      obtain ⟨l1, l2, hsplit, hyr, hl1, hl2⟩ := ih y h
      refine ⟨x :: l1, l2, by simp [hsplit], hyr, ?_, hl2⟩
      intro z hz
      rcases List.mem_cons.mp hz with hz | hz
      · subst hz
        exact lt_of_le_of_lt hyr (lt_of_not_le hx)
      · exact hl1 z hz

/-- On a table with at least one in-radius row, `idxmin` of the filtered
table yields a row. -/
theorem idxmin_filter_isSome (r : ℚ) (l : List (Port × ℚ)) (z : Port × ℚ)
    (hz : z ∈ l) (hzr : z.2 ≤ r) :
    ∃ y, idxmin_first (l.filter (fun w => w.2 ≤ r)) = some y := by
  cases h : idxmin_first (l.filter (fun w => w.2 ≤ r)) with
  | none =>
    exfalso
    have hnil := (idxmin_first_eq_none_iff _).mp h
    have : z ∈ l.filter (fun w => w.2 ≤ r) :=
      List.mem_filter.mpr ⟨hz, by simpa using hzr⟩
    simp [hnil] at this
  | some y => exact ⟨y, rfl⟩

/-- Decomposing an annotated table split around its `map` image: the
underlying port list splits accordingly. -/
theorem map_annot_split (f : Port → Port × ℚ) :
    ∀ (ports : List Port) (l1 l2 : List (Port × ℚ)) (y : Port × ℚ),
      ports.map f = l1 ++ y :: l2 →
      ∃ m1 q m2, ports = m1 ++ q :: m2 ∧ m1.map f = l1 ∧ f q = y ∧
        m2.map f = l2 := by
  intro ports
  induction ports with
  | nil => intro l1 l2 y h; simp at h
  | cons a t ih =>
    intro l1 l2 y h
    cases l1 with
    | nil =>
      simp only [List.map_cons, List.nil_append] at h
      obtain ⟨h1, h2⟩ := List.cons.inj h
      exact ⟨[], a, t, rfl, rfl, h1, h2⟩
    | cons b l1t =>
      simp only [List.map_cons, List.cons_append] at h
      obtain ⟨h1, h2⟩ := List.cons.inj h
      obtain ⟨m1, q, m2, ht, hm1, hq, hm2⟩ := ih l1t l2 y h2
      exact ⟨a :: m1, q, m2, by simp [ht], by simp [hm1, h1], hq, hm2⟩

/-- Every row of the annotated table carries the distance of its own port. -/
theorem mem_annot (dist : Point → Point → ℚ) (loc : Point) (ports : List Port)
    (y : Port × ℚ)
    (hy : y ∈ ports.map (fun p => (p, dist loc (p.lat, p.lon)))) :
    y.1 ∈ ports ∧ y.2 = dist loc (y.1.lat, y.1.lon) := by
  obtain ⟨p, hp, hpy⟩ := List.mem_map.mp hy
  subst hpy
  exact ⟨hp, rfl⟩

/-- Full characterisation of a successful resolution: the returned port is
in radius, no catalog port is strictly nearer, and every port listed
before it in the catalog is strictly farther. -/
theorem select_nearest_port_spec (dist : Point → Point → ℚ) (ports : List Port)
    (radius : ℚ) (loc : Point) (p : Port)
    (h : select_nearest_port dist ports radius loc = some p) :
    dist loc (p.lat, p.lon) ≤ radius ∧
    (∀ q ∈ ports, ¬ dist loc (q.lat, q.lon) < dist loc (p.lat, p.lon)) ∧
    ∃ pre post, ports = pre ++ p :: post ∧
      ∀ q ∈ pre, dist loc (p.lat, p.lon) < dist loc (q.lat, q.lon) := by
  unfold select_nearest_port at h
  obtain ⟨y, hy, hyp⟩ := Option.map_eq_some'.mp h
  obtain ⟨l1, l2, hsplit, hyr, hl1, hl2⟩ := idxmin_filter_spec radius _ y hy
  obtain ⟨m1, q, m2, hports, hm1, hq, hm2⟩ :=
    map_annot_split (fun p => (p, dist loc (p.lat, p.lon))) ports l1 l2 y hsplit
  have hq1 : q = p := by rw [← hyp, ← hq]
  subst hq1
  have hy2 : y.2 = dist loc (q.lat, q.lon) := by rw [← hq]
  refine ⟨by rw [← hy2]; exact hyr, ?_, m1, m2, hports, ?_⟩
  · intro q' hq'
    rw [hports] at hq'
    rcases List.mem_append.mp hq' with hq' | hq'
    · have : (q', dist loc (q'.lat, q'.lon)) ∈ l1 := by
        rw [← hm1]; exact List.mem_map.mpr ⟨q', hq', rfl⟩
      have := hl1 _ this
      rw [hy2] at this
      exact fun hc => absurd hc (not_lt_of_gt this)
    · rcases List.mem_cons.mp hq' with hq' | hq'
      · subst hq'; exact lt_irrefl _
      · have hmem : (q', dist loc (q'.lat, q'.lon)) ∈ l2 := by
          rw [← hm2]; exact List.mem_map.mpr ⟨q', hq', rfl⟩
        intro hc
        by_cases hr : dist loc (q'.lat, q'.lon) ≤ radius
        · have := hl2 _ hmem (by simpa using hr)
          rw [hy2] at this
          exact absurd hc (not_lt_of_ge this)
        · push_neg at hr
          have : dist loc (q.lat, q.lon) ≤ radius := by rw [← hy2]; exact hyr
          exact absurd hc (not_lt_of_ge (le_trans this (le_of_lt hr)))
  · intro q' hq'
    have : (q', dist loc (q'.lat, q'.lon)) ∈ l1 := by
      rw [← hm1]; exact List.mem_map.mpr ⟨q', hq', rfl⟩
    have := hl1 _ this
    rwa [hy2] at this

/-- Sample catalog row used in witnesses. -/
def portA : Port := { name := "Port A", lat := 10, lon := 10 }

/-- Second sample catalog row used in witnesses. -/
def portB : Port := { name := "Port B", lat := 10, lon := 21/2 }

/-- Claim C1: whenever some catalog facility lies within the (inclusive)
radius of a point, `select_nearest_port` returns a facility within the
radius, no catalog facility is strictly nearer, and every facility listed
before the returned one in catalog order is strictly farther (so on ties
at the minimum the first in catalog iteration order is returned). -/
theorem C1_resolver_nearest_in_radius (dist : Point → Point → ℚ)
    (ports : List Port) (radius : ℚ) (loc : Point)
    (h : ∃ q ∈ ports, dist loc (q.lat, q.lon) ≤ radius) :
    ∃ p, select_nearest_port dist ports radius loc = some p ∧
      dist loc (p.lat, p.lon) ≤ radius ∧
      (∀ q ∈ ports, ¬ dist loc (q.lat, q.lon) < dist loc (p.lat, p.lon)) ∧
      ∃ pre post, ports = pre ++ p :: post ∧
        ∀ q ∈ pre, dist loc (p.lat, p.lon) < dist loc (q.lat, q.lon) := by
  obtain ⟨q, hq, hqr⟩ := h
  have hmem : (q, dist loc (q.lat, q.lon)) ∈
      ports.map (fun p => (p, dist loc (p.lat, p.lon))) :=
    List.mem_map.mpr ⟨q, hq, rfl⟩
  obtain ⟨y, hy⟩ := idxmin_filter_isSome radius _ _ hmem hqr
  have hsel : select_nearest_port dist ports radius loc = some y.1 := by
    simp only [select_nearest_port]
    rw [hy]
    rfl
  exact ⟨y.1, hsel, select_nearest_port_spec dist ports radius loc y.1 hsel⟩

/-- Witness for C1 at a concrete input where the single facility sits at
distance exactly equal to the radius, exercising the inclusive bound. -/
theorem C1_witness :
    ∃ p, select_nearest_port sqDist [portA] 250000 (10, 510) = some p ∧
      sqDist (10, 510) (p.lat, p.lon) ≤ 250000 ∧
      (∀ q ∈ [portA], ¬ sqDist (10, 510) (q.lat, q.lon) <
        sqDist (10, 510) (p.lat, p.lon)) ∧
      ∃ pre post, [portA] = pre ++ p :: post ∧
        ∀ q ∈ pre, sqDist (10, 510) (p.lat, p.lon) <
          sqDist (10, 510) (q.lat, q.lon) :=
  C1_resolver_nearest_in_radius sqDist [portA] 250000 (10, 510)
    ⟨portA, by simp, by norm_num [sqDist, portA]⟩

/-- Claim C4: when no catalog facility lies within the radius of the
point, `select_nearest_port` returns `None`. -/
theorem C4_resolver_no_match_none (dist : Point → Point → ℚ)
    (ports : List Port) (radius : ℚ) (loc : Point)
    (h : ∀ q ∈ ports, ¬ dist loc (q.lat, q.lon) ≤ radius) :
    select_nearest_port dist ports radius loc = none := by
  simp only [select_nearest_port]
  have hnil : (ports.map (fun p => (p, dist loc (p.lat, p.lon)))).filter
      (fun pd => pd.2 ≤ radius) = [] := by
    rw [List.filter_eq_nil_iff]
    intro a ha
    obtain ⟨hmem, heq⟩ := mem_annot dist loc ports a ha
    simpa [heq] using h a.1 hmem
  rw [hnil]
  rfl

/-- Witness for C4: one facility at squared distance 200, radius 1. -/
theorem C4_witness :
    select_nearest_port sqDist [portA] 1 (0, 0) = none :=
  C4_resolver_no_match_none sqDist [portA] 1 (0, 0)
    (by intro q hq; simp at hq; subst hq; norm_num [sqDist, portA])

/-- Claim C2: the expansion always yields exactly 3 legs, in order, with
sequence 1,2,3, modes ROAD/SEA/ROAD, the shipment's vehicle type on legs
1 and 3 and `None` on leg 2, and load/customer/date copied verbatim onto
all three legs; identical arguments yield identical leg lists. -/
theorem C2_legs_shape (s : Shipment) (op dp : Port) :
    (legs s op dp).length = 3 ∧
    (legs s op dp).map Leg.sequence = [1, 2, 3] ∧
    (legs s op dp).map Leg.mode = [Mode.ROAD, Mode.SEA, Mode.ROAD] ∧
    (legs s op dp).map Leg.vehicleType =
      [some s.vehicleType, none, some s.vehicleType] ∧
    (∀ leg ∈ legs s op dp, leg.loadTons = s.loadTons ∧
      leg.customerName = s.customerName ∧ leg.date = s.date) ∧
    ∀ s2 op2 dp2, s = s2 → op = op2 → dp = dp2 →
      legs s op dp = legs s2 op2 dp2 := by
  refine ⟨rfl, rfl, rfl, rfl, ?_, ?_⟩
  · intro leg hleg
    simp only [legs, List.mem_cons, List.not_mem_nil, or_false] at hleg
    rcases hleg with rfl | rfl | rfl <;> exact ⟨rfl, rfl, rfl⟩
  · intro s2 op2 dp2 h1 h2 h3
    rw [h1, h2, h3]

/-- Claim C9: the three legs are geographically contiguous: leg 1 starts
at the shipment origin and ends at the origin port, leg 2 runs from the
origin port to the destination port, leg 3 from the destination port to
the shipment destination, with shared endpoint coordinates equal. -/
theorem C9_legs_contiguous (s : Shipment) (op dp : Port) :
    ∃ l1 l2 l3, legs s op dp = [l1, l2, l3] ∧
      l1.originLat = s.originLat ∧ l1.originLon = s.originLon ∧
      l1.destinationLat = l2.originLat ∧ l1.destinationLon = l2.originLon ∧
      l2.originLat = op.lat ∧ l2.originLon = op.lon ∧
      l2.destinationLat = l3.originLat ∧ l2.destinationLon = l3.originLon ∧
      l3.originLat = dp.lat ∧ l3.originLon = dp.lon ∧
      l3.destinationLat = s.destinationLat ∧
      l3.destinationLon = s.destinationLon :=
  ⟨_, _, _, rfl, rfl, rfl, rfl, rfl, rfl, rfl, rfl, rfl, rfl, rfl, rfl, rfl⟩

/-- Unfolding the loop accumulator: folding from `(a, b)` prepends `a`
and `b` to the result of folding from the empty accumulators. -/
theorem process_append_init (dist : Point → Point → ℚ) (ports : List Port)
    (radius : ℚ) :
    ∀ (ss : List Shipment) (a : List Leg) (b : List String),
      List.foldl (fun acc s =>
        let r := process_shipment dist ports radius s
        (acc.1 ++ r.1, acc.2 ++ r.2)) (a, b) ss =
      (a ++ (process dist ports radius ss).1,
       b ++ (process dist ports radius ss).2) := by
  intro ss
  induction ss with
  | nil => intro a b; simp [process]
  | cons s t ih =>
    intro a b
    simp only [process, List.foldl_cons]
    rw [ih, ih]
    simp

/-- One loop iteration: processing `s :: ss` emits the legs and the
diagnostics of `s` first, then those of the remaining shipments. -/
theorem process_cons (dist : Point → Point → ℚ) (ports : List Port)
    (radius : ℚ) (s : Shipment) (ss : List Shipment) :
    process dist ports radius (s :: ss) =
      ((process_shipment dist ports radius s).1 ++
        (process dist ports radius ss).1,
       (process_shipment dist ports radius s).2 ++
        (process dist ports radius ss).2) := by
  have h := process_append_init dist ports radius ss
    (process_shipment dist ports radius s).1
    (process_shipment dist ports radius s).2
  simp only [process, List.foldl_cons, List.nil_append]
  exact h

/-- The loop output is the concatenation, in input order, of each
shipment's contribution. -/
theorem process_eq_join (dist : Point → Point → ℚ) (ports : List Port)
    (radius : ℚ) (ss : List Shipment) :
    process dist ports radius ss =
      ((ss.map (fun s => (process_shipment dist ports radius s).1)).flatten,
       (ss.map (fun s => (process_shipment dist ports radius s).2)).flatten) := by
  induction ss with
  | nil => simp [process]
  | cons s t ih => rw [process_cons, ih]; simp

/-- Claim C3: per shipment, the loop either (when a resolution came back
`None`) emits zero legs and exactly one diagnostic, or (when both came
back) emits exactly three legs and zero diagnostics; and the loop always
continues with the remaining shipments either way. -/
theorem C3_skip_or_three_legs (dist : Point → Point → ℚ) (ports : List Port)
    (radius : ℚ) (s : Shipment) :
    (∀ ss : List Shipment, process dist ports radius (s :: ss) =
      ((process_shipment dist ports radius s).1 ++
        (process dist ports radius ss).1,
       (process_shipment dist ports radius s).2 ++
        (process dist ports radius ss).2)) ∧
    ((select_nearest_port dist ports radius (s.originLat, s.originLon) = none ∨
      select_nearest_port dist ports radius
        (s.destinationLat, s.destinationLon) = none) →
      (process_shipment dist ports radius s).1.length = 0 ∧
      (process_shipment dist ports radius s).2.length = 1) ∧
    (∀ op dp,
      select_nearest_port dist ports radius (s.originLat, s.originLon) = some op →
      select_nearest_port dist ports radius
        (s.destinationLat, s.destinationLon) = some dp →
      (process_shipment dist ports radius s).1.length = 3 ∧
      (process_shipment dist ports radius s).2.length = 0) := by
  refine ⟨fun ss => process_cons dist ports radius s ss, ?_, ?_⟩
  · intro h
    rcases h with h | h <;> [skip; cases ho : select_nearest_port dist ports
      radius (s.originLat, s.originLon)] <;> simp [process_shipment, h]
  · intro op dp ho hd
    simp [process_shipment, ho, hd, legs]

/-- Sample shipment used in witnesses. -/
def shipmentS1 : Shipment :=
  { consignmentId := "S1", origin := "X", originLat := 10, originLon := 10,
    destination := "Y", destinationLat := 10, destinationLon := 21/2,
    loadTons := 5, customerName := "ACME", vehicleType := "Truck",
    date := "2024-01-01" }

/-- Witness for C3: with two in-radius ports the sample shipment yields
3 legs and 0 diagnostics; with an empty catalog it yields 0 legs and
exactly 1 diagnostic. -/
theorem C3_witness :
    ((process_shipment sqDist [portA, portB] 500 shipmentS1).1.length = 3 ∧
     (process_shipment sqDist [portA, portB] 500 shipmentS1).2.length = 0) ∧
    ((process_shipment sqDist [] 500 shipmentS1).1.length = 0 ∧
     (process_shipment sqDist [] 500 shipmentS1).2.length = 1) :=
  ⟨(C3_skip_or_three_legs sqDist [portA, portB] 500 shipmentS1).2.2
      portA portB
      (by norm_num [select_nearest_port, sqDist, portA, portB, shipmentS1,
        idxmin_first])
      (by norm_num [select_nearest_port, sqDist, portA, portB, shipmentS1,
        idxmin_first]),
   (C3_skip_or_three_legs sqDist [] 500 shipmentS1).2.1
      (Or.inl rfl)⟩

/-- Claim C5: the output leg table is the concatenation, in input order,
of each shipment's legs (so legs of an earlier shipment precede those of
a later one), and each shipment's block is either empty or carries
sequence numbers 1, 2, 3 in order. -/
theorem C5_stable_output_order (dist : Point → Point → ℚ) (ports : List Port)
    (radius : ℚ) (ss : List Shipment) :
    (process dist ports radius ss).1 =
      (ss.map (fun s => (process_shipment dist ports radius s).1)).flatten ∧
    ∀ s : Shipment, (process_shipment dist ports radius s).1 = [] ∨
      (process_shipment dist ports radius s).1.map Leg.sequence = [1, 2, 3] := by
  constructor
  · rw [process_eq_join]
  · intro s
    rcases ho : select_nearest_port dist ports radius
        (s.originLat, s.originLon) with _ | op
    · left; simp [process_shipment, ho]
    · rcases hd : select_nearest_port dist ports radius
          (s.destinationLat, s.destinationLon) with _ | dp
      · left; simp [process_shipment, ho, hd]
      · right; simp [process_shipment, ho, hd, legs]

/-- Claim C10: the skip decision is the explicit `is None` test on the
resolver result, so any resolved facility — zero-valued fields included —
yields the full three-leg itinerary and no diagnostic. -/
theorem C10_presence_not_truthiness (dist : Point → Point → ℚ)
    (ports : List Port) (radius : ℚ) (s : Shipment) (op dp : Port)
    (ho : select_nearest_port dist ports radius (s.originLat, s.originLon) = some op)
    (hd : select_nearest_port dist ports radius
      (s.destinationLat, s.destinationLon) = some dp) :
    (process_shipment dist ports radius s).1 = legs s op dp ∧
    (process_shipment dist ports radius s).2 = [] ∧
    (process_shipment dist ports radius s).1.length = 3 := by
  simp [process_shipment, ho, hd, legs]

/-- A facility whose every field is zero-valued or empty — falsy in
Python truthiness terms. -/
def portZero : Port := { name := "", lat := 0, lon := 0 }

/-- A shipment whose endpoints coincide with `portZero`. -/
def shipmentZ : Shipment :=
  { consignmentId := "Z", origin := "", originLat := 0, originLon := 0,
    destination := "", destinationLat := 0, destinationLon := 0,
    loadTons := 0, customerName := "", vehicleType := "", date := "" }

/-- Witness for C10: the all-falsy facility `portZero` is resolved for
both endpoints and still yields three legs and no skip. -/
theorem C10_witness :
    (process_shipment sqDist [portZero] 500 shipmentZ).1 =
      legs shipmentZ portZero portZero ∧
    (process_shipment sqDist [portZero] 500 shipmentZ).2 = [] ∧
    (process_shipment sqDist [portZero] 500 shipmentZ).1.length = 3 :=
  C10_presence_not_truthiness sqDist [portZero] 500 shipmentZ portZero portZero
    (by norm_num [select_nearest_port, sqDist, portZero, shipmentZ, idxmin_first])
    (by norm_num [select_nearest_port, sqDist, portZero, shipmentZ, idxmin_first])

/-- The shared `ports_df` DataFrame as the resolver sees it: the catalog
rows plus the transient `Distance` column written by line 124, absent
before the first resolver call. -/
structure PortsDf where
  ports : List Port
  distance_col : Option (List ℚ)
  deriving Repr, DecidableEq

/-- Stateful rendering of `select_nearest_port` (lines 122-134): line 124
assigns a fresh `Distance` column onto the shared `ports_df` (mutating
it), then the filter and `idxmin` read that column; the updated DataFrame
is part of the result. -/
def select_nearest_port_st (dist : Point → Point → ℚ) (radius : ℚ)
    (df : PortsDf) (loc : Point) : Option Port × PortsDf :=
  let dists := df.ports.map (fun p => dist loc (p.lat, p.lon))
  let df' : PortsDf := { ports := df.ports, distance_col := some dists }
  let nearby := (df.ports.zip dists).filter (fun pd => pd.2 ≤ radius)
  (Option.map Prod.fst (idxmin_first nearby), df')

/-- Stateful rendering of one loop iteration, threading `ports_df`
through the two resolver calls. -/
def process_shipment_st (dist : Point → Point → ℚ) (radius : ℚ)
    (df : PortsDf) (s : Shipment) : (List Leg × List String) × PortsDf :=
  let r1 := select_nearest_port_st dist radius df (s.originLat, s.originLon)
  let r2 := select_nearest_port_st dist radius r1.2 (s.destinationLat, s.destinationLon)
  (match r1.1, r2.1 with
   | some op, some dp => (legs s op dp, [])
   | _, _ =>
     ([], ["No suitable ports found within " ++ toString radius ++
           " km for shipment " ++ s.consignmentId ++ ". Skipping."]),
   r2.2)

/-- Stateful rendering of the whole loop, threading `ports_df`. -/
def process_st (dist : Point → Point → ℚ) (radius : ℚ) (df : PortsDf)
    (shipments : List Shipment) : (List Leg × List String) × PortsDf :=
  shipments.foldl
    (fun acc s =>
      let r := process_shipment_st dist radius acc.2 s
      ((acc.1.1 ++ r.1.1, acc.1.2 ++ r.1.2), r.2))
    (([], []), df)

/-- Zipping a list with its own image is the annotated map. -/
theorem zip_map_self (f : Port → ℚ) :
    ∀ l : List Port, l.zip (l.map f) = l.map (fun p => (p, f p)) := by
  intro l
  induction l with
  | nil => rfl
  | cons a t ih => simp [ih]

/-- The stateful resolver computes the same match as the pure one. -/
theorem select_st_fst (dist : Point → Point → ℚ) (radius : ℚ)
    (df : PortsDf) (loc : Point) :
    (select_nearest_port_st dist radius df loc).1 =
      select_nearest_port dist df.ports radius loc := by
  simp only [select_nearest_port_st, select_nearest_port, zip_map_self]

/-- Folding the stateful loop never touches the catalog rows. -/
theorem process_st_foldl_ports (dist : Point → Point → ℚ) (radius : ℚ) :
    ∀ (ss : List Shipment) (acc : (List Leg × List String) × PortsDf),
      (List.foldl
        (fun acc s =>
          let r := process_shipment_st dist radius acc.2 s
          ((acc.1.1 ++ r.1.1, acc.1.2 ++ r.1.2), r.2)) acc ss).2.ports =
      acc.2.ports := by
  intro ss
  induction ss with
  | nil => intro acc; rfl
  | cons s t ih =>
    intro acc
    rw [List.foldl_cons, ih]
    rfl

/-- Counterexample to claim C7 as stated: a single resolver call does
modify the loaded catalog DataFrame — it writes the `Distance` column. -/
theorem C7_counterexample :
    (select_nearest_port_st sqDist 500
        { ports := [portA], distance_col := none } (0, 0)).2 ≠
      { ports := [portA], distance_col := none } := by
  intro h
  have h2 := congrArg PortsDf.distance_col h
  simp [select_nearest_port_st] at h2

/-- Claim C7 amended: no resolver or orchestrator operation modifies the
catalog's rows or its load-time column values — the `ports` rows are
preserved by every resolver call and by the whole batch loop; the only
write is the transient `Distance` column, freshly overwritten by each
resolver call. -/
theorem C7_catalog_rows_readonly (dist : Point → Point → ℚ) (radius : ℚ)
    (df : PortsDf) (loc : Point) :
    ((select_nearest_port_st dist radius df loc).2).ports = df.ports ∧
    ((select_nearest_port_st dist radius df loc).2).distance_col =
      some (df.ports.map (fun p => dist loc (p.lat, p.lon))) ∧
    ∀ ss : List Shipment, ((process_st dist radius df ss).2).ports = df.ports := by
  refine ⟨rfl, rfl, ?_⟩
  intro ss
  exact process_st_foldl_ports dist radius ss (([], []), df)

/-- Claim C8: the resolver's result only depends on the catalog rows, the
point and the radius — any stale `Distance` column left by earlier calls
is irrelevant because a fresh one is recomputed and overwritten. -/
theorem C8_resolver_state_independent (dist : Point → Point → ℚ)
    (radius : ℚ) (loc : Point) (df1 df2 : PortsDf)
    (h : df1.ports = df2.ports) :
    (select_nearest_port_st dist radius df1 loc).1 =
      (select_nearest_port_st dist radius df2 loc).1 ∧
    (select_nearest_port_st dist radius df1 loc).1 =
      select_nearest_port dist df1.ports radius loc ∧
    (select_nearest_port_st dist radius df1 loc).2.distance_col =
      some (df1.ports.map (fun p => dist loc (p.lat, p.lon))) := by
  refine ⟨?_, select_st_fst dist radius df1 loc, rfl⟩
  rw [select_st_fst, select_st_fst, h]

/-- Witness for C8: same catalog rows, one DataFrame fresh and the other
carrying a stale `Distance` column — identical resolver results. -/
theorem C8_witness :
    (select_nearest_port_st sqDist 500
        { ports := [portA], distance_col := none } (10, 10)).1 =
      (select_nearest_port_st sqDist 500
        { ports := [portA], distance_col := some [999] } (10, 10)).1 ∧
    (select_nearest_port_st sqDist 500
        { ports := [portA], distance_col := none } (10, 10)).1 =
      select_nearest_port sqDist [portA] 500 (10, 10) ∧
    (select_nearest_port_st sqDist 500
        { ports := [portA], distance_col := none } (10, 10)).2.distance_col =
      some ([portA].map (fun p => sqDist (10, 10) (p.lat, p.lon))) :=
  C8_resolver_state_independent sqDist 500 (10, 10)
    { ports := [portA], distance_col := none }
    { ports := [portA], distance_col := some [999] } rfl

/-- A raw row of `ports.csv` before cleaning: a coordinate that fails
`pd.to_numeric(errors='coerce')` becomes `NaN`, modelled as `none`. -/
structure RawPortRow where
  name : String
  lat : Option ℚ
  lon : Option ℚ

/-- The loader `load_ports_data` (lines 51-64): `None` when reading `ports.csv`
raises `FileNotFoundError`; otherwise the rows whose two coordinates
survive numeric coercion (`dropna`), possibly an empty list. -/
def load_ports_data (source : Option (List RawPortRow)) : Option (List Port) :=
  match source with
  | none => none
  | some rows =>
    some (rows.filterMap (fun r =>
      match r.lat, r.lon with
      | some la, some lo => some { name := r.name, lat := la, lon := lo }
      | _, _ => none))

/-- The top-level guard around shipment processing (line 68,
`if ports_df is not None:`): the Process Shipments loop runs whenever the
load did not fail with `FileNotFoundError`; whether the cleaned catalog
is empty is never checked. -/
def run_app (dist : Point → Point → ℚ) (loaded : Option (List Port))
    (radius : ℚ) (shipments : List Shipment) :
    Option (List Leg × List String) :=
  match loaded with
  | none => none
  | some ports => some (process dist ports radius shipments)

/-- Claim C6 is violated by the code: a readable facility source with zero
valid rows loads as `Some` of the empty catalog, the `is not None` guard
passes, and the shipment loop runs anyway — the shipment is resolved
against the empty catalog (yielding `None`) and skipped with a
diagnostic, instead of the batch halting before any shipment processing. -/
theorem C6_empty_catalog_still_processed :
    load_ports_data (some [{ name := "Bad", lat := none, lon := none }]) =
      some [] ∧
    select_nearest_port sqDist [] 500
      (shipmentS1.originLat, shipmentS1.originLon) = none ∧
    ∃ diags, run_app sqDist
        (load_ports_data (some [{ name := "Bad", lat := none, lon := none }]))
        500 [shipmentS1] = some ([], diags) ∧ diags.length = 1 :=
  ⟨rfl, rfl, _, rfl, rfl⟩
